import Mathlib

/-!
Shallow embedding of the booking saga orchestrator of this repository:
`src/booking_schemas.py` (data model) and `src/txn_manager.py`
(`TransactionManager.reserve_all`, `confirm_all`, `compensate`).

Modelling conventions:
* Python `dict` payloads (`meta`, provider `raw`) are association lists
  `List (String × String)`; `dict.update` is embedded key by key
  (`rawSet`/`rawUpdate`), matching CPython semantics on duplicate-free
  key lists (a Python dict never holds a duplicate key).
* Provider response objects are duck-typed in the source: `success` and
  `raw` are read through `getattr` with a default, so `raw` is an
  `Option`; `hold_id`/`confirmed_id` are read as plain attributes.
* A raised Python exception is `Option.none` of the embedded function:
  `reserve_all`/`confirm_all` return `Option BookingRequest` (an
  uncaught error propagates to the caller), while `cancel_hold` returns
  `Option Bool` (`none` models a throw, `some b` a returned bool) and
  `compensate` is total because its loop body catches every exception.
* `float` fields (`price`, `taxes`, `total`, `total_amount`) carry no
  arithmetic anywhere in the orchestrator, so they are embedded as `Rat`.
-/

/-- Per-item status literal of `BookingItem.status`. -/
inductive Status where
  | pending
  | held
  | confirmed
  | failed
  | cancelled
deriving DecidableEq

/-- Request-level status literal of `BookingRequest.status`. -/
inductive ReqStatus where
  | created
  | authorized
  | confirmed
  | failed
  | cancelled
deriving DecidableEq

/-- The `item_type` literal: selects the provider handling the item. -/
inductive ItemType where
  | flight
  | hotel
  | attraction
  | cab
deriving DecidableEq

/-- A Python dict of provider diagnostics, as an association list. -/
abbrev RawMap := List (String × String)

/-- Dict read `m.get(k)`: value of the first entry with key `k`. -/
def rawLookup : RawMap → String → Option String
  | [], _ => none
  | p :: rest, k => if p.1 = k then some p.2 else rawLookup rest k

/-- Dict write `m[k] = v`: replace the entry for `k` in place, else append. -/
def rawSet : RawMap → String → String → RawMap
  | [], k, v => [(k, v)]
  | p :: rest, k, v => if p.1 = k then (k, v) :: rest else p :: rawSet rest k v

/-- Python `m.update(new)`: set every key of `new` into `m`, new values win. -/
def rawUpdate (m new : RawMap) : RawMap :=
  new.foldl (fun acc p => rawSet acc p.1 p.2) m

/-- `BookingItem` of `src/booking_schemas.py`. -/
structure BookingItem where
  item_id : String
  item_type : ItemType
  description : String
  provider : String
  price : Rat
  currency : String
  taxes : Rat := 0
  total : Rat
  hold_id : Option String := none
  confirmed_id : Option String := none
  status : Status := Status.pending
  meta : RawMap := []
deriving DecidableEq

/-- `BookingRequest` of `src/booking_schemas.py`. -/
structure BookingRequest where
  user_id : String
  itinerary_id : String
  items : List BookingItem
  total_amount : Rat
  currency : String
  idempotency_key : Option String := none
  status : ReqStatus := ReqStatus.created
deriving DecidableEq

/-- Opaque proof-of-payment object; the orchestrator only passes it through. -/
abbrev PaymentAuth := String

/-- A provider response object. `success` is read via
`getattr(resp, "success", False)`, so a missing attribute and `False`
coincide and a plain `Bool` suffices; `raw` is read via `getattr` with a
default on the failure paths, so an absent attribute is `none`;
`hold_id`/`confirmed_id` are read as plain attributes whose Python value
may be `None`. -/
structure ProviderResp where
  success : Bool
  hold_id : Option String := none
  confirmed_id : Option String := none
  raw : Option RawMap := none

/-- A provider client: `.reserve(item)`, `.confirm(item, payment_auth)`,
`.cancel_hold(hold_id)`. `cancel_hold` returning `none` models a thrown
exception; `some b` models a normal return of `b` (the orchestrator
ignores the returned value). -/
structure Provider where
  reserve : BookingItem → ProviderResp
  confirm : BookingItem → PaymentAuth → ProviderResp
  cancel_hold : String → Option Bool

/-- The `providers` dict of the `TransactionManager`: `dict.get` by
`item_type`, `none` when no provider is mapped. -/
abbrev Providers := ItemType → Option Provider

/-- Sequential effectful loop over a list: stops at the first `none`
(an uncaught exception aborts the Python `for` loop). -/
def mapOpt {α β : Type} (f : α → Option β) : List α → Option (List β)
  | [] => some []
  | a :: as =>
    match f a with
    | none => none
    | some b =>
      match mapOpt f as with
      | none => none
      | some bs => some (b :: bs)

/-- One iteration of the `reserve_all` loop (`src/txn_manager.py:24-37`).
`none` models the uncaught `AttributeError` of `item.meta = resp.raw`
when a successful response lacks a `raw` attribute. -/
def reserveItem (providers : Providers) (item : BookingItem) : Option BookingItem :=
  match providers item.item_type with
  | none => some { item with status := Status.failed, meta := [("error", "no_provider")] }
  | some p =>
    let resp := p.reserve item
    if resp.success then
      match resp.raw with
      | none => none
      | some r => some { item with hold_id := resp.hold_id, status := Status.held, meta := r }
    else
      some { item with status := Status.failed,
                       meta := resp.raw.getD [("error", "reserve_failed")] }

/-- `TransactionManager.reserve_all` (`src/txn_manager.py:18-38`):
place a hold for each item, return the updated request. -/
def reserve_all (providers : Providers) (req : BookingRequest) : Option BookingRequest :=
  match mapOpt (reserveItem providers) req.items with
  | none => none
  | some items => some { req with items := items }

/-- One iteration of the `confirm_all` loop (`src/txn_manager.py:46-58`).
Non-`held` items are skipped; a `held` item whose `item_type` has no
mapped provider makes the unguarded `provider.confirm` call raise
(`none`). -/
def confirmItem (providers : Providers) (pa : PaymentAuth) (item : BookingItem) :
    Option BookingItem :=
  if item.status ≠ Status.held then some item
  else
    match providers item.item_type with
    | none => none
    | some p =>
      let resp := p.confirm item pa
      if resp.success then
        some { item with confirmed_id := resp.confirmed_id,
                         status := Status.confirmed,
                         meta := rawUpdate item.meta (resp.raw.getD []) }
      else
        some { item with status := Status.failed,
                         meta := rawUpdate item.meta
                           (resp.raw.getD [("error", "confirm_failed")]) }

/-- One iteration of the `compensate` loop (`src/txn_manager.py:71-81`),
paired with the `CancelHold` invocation `(item_id, hold_id)` the
iteration performs, if any. `if item.hold_id:` is Python truthiness
(neither `None` nor the empty string); a missing provider raises inside
the `try` before any call and is swallowed; a thrown `cancel_hold`
leaves the item unchanged; a normal return (its value is ignored) marks
a non-`confirmed` item `cancelled`. -/
def compensateItemCall (providers : Providers) (item : BookingItem) :
    BookingItem × Option (String × String) :=
  match item.hold_id with
  | none => (item, none)
  | some h =>
    if h = "" then (item, none)
    else
      match providers item.item_type with
      | none => (item, none)
      | some p =>
        match p.cancel_hold h with
        | none => (item, some (item.item_id, h))
        | some _ =>
          (if item.status = Status.confirmed then item
           else { item with status := Status.cancelled },
           some (item.item_id, h))

/-- `TransactionManager.compensate` (`src/txn_manager.py:67-81`):
cancel any holds for items that had `hold_id` set. -/
def compensate (providers : Providers) (req : BookingRequest) : BookingRequest :=
  { req with items := req.items.map (fun i => (compensateItemCall providers i).1) }

/-- The trace of `CancelHold` invocations `(item_id, hold_id)` that
`compensate` performs, in loop order. -/
def compensate_calls (providers : Providers) (req : BookingRequest) :
    List (String × String) :=
  req.items.filterMap (fun i => (compensateItemCall providers i).2)

/-- `TransactionManager.confirm_all` (`src/txn_manager.py:40-65`):
confirm held items, compensate and mark the request `failed` when any
item is `failed`, else mark it `confirmed`. -/
def confirm_all (providers : Providers) (pa : PaymentAuth) (req : BookingRequest) :
    Option BookingRequest :=
  match mapOpt (confirmItem providers pa) req.items with
  | none => none
  | some items =>
    if items.any (fun i => i.status == Status.failed) then
      some { compensate providers { req with items := items } with status := ReqStatus.failed }
    else
      some { req with items := items, status := ReqStatus.confirmed }

/-- Equality of every `BookingItem` field the orchestrator never assigns:
all fields except `status`, `hold_id`, `confirmed_id` and `meta`. -/
def itemFrameEq (a b : BookingItem) : Prop :=
  a.item_id = b.item_id ∧ a.item_type = b.item_type ∧ a.description = b.description ∧
  a.provider = b.provider ∧ a.price = b.price ∧ a.currency = b.currency ∧
  a.taxes = b.taxes ∧ a.total = b.total

/-- Equality of every `BookingRequest` field the orchestrator never
assigns (all fields except `status`), together with preservation of the
item count and, index by index, of the unassigned item fields. -/
def reqFrameEq (a b : BookingRequest) : Prop :=
  a.user_id = b.user_id ∧ a.itinerary_id = b.itinerary_id ∧
  a.total_amount = b.total_amount ∧ a.currency = b.currency ∧
  a.idempotency_key = b.idempotency_key ∧
  a.items.length = b.items.length ∧
  ∀ (i : Nat) (h : i < a.items.length) (h' : i < b.items.length),
    itemFrameEq (a.items.get ⟨i, h⟩) (b.items.get ⟨i, h'⟩)

/-! ### Concrete fixtures used by witnesses and counterexamples -/

/-- A bookable item with every orchestrator-owned field at its default. -/
def baseItem (id : String) (t : ItemType) : BookingItem :=
  { item_id := id, item_type := t, description := "desc", provider := "prov",
    price := 100, currency := "USD", taxes := 10, total := 110 }

/-- A request around the given items. -/
def baseRequest (items : List BookingItem) : BookingRequest :=
  { user_id := "u1", itinerary_id := "itin1", items := items,
    total_amount := 110, currency := "USD", idempotency_key := some "idem1" }

/-- A provider whose three operations all succeed. -/
def goodProvider (hold conf : String) : Provider :=
  { reserve := fun _ => { success := true, hold_id := some hold, raw := some [("src", "reserve")] },
    confirm := fun _ _ => { success := true, confirmed_id := some conf, raw := some [("src", "confirm")] },
    cancel_hold := fun _ => some true }

/-- A provider that reserves but rejects confirmation. -/
def confirmFailProvider (hold : String) : Provider :=
  { reserve := fun _ => { success := true, hold_id := some hold, raw := some [("src", "reserve")] },
    confirm := fun _ _ => { success := false, raw := some [("error", "card_declined")] },
    cancel_hold := fun _ => some true }

/-- A provider that reserves, rejects confirmation, and throws from
`cancel_hold`. -/
def cancelThrowProvider (hold : String) : Provider :=
  { reserve := fun _ => { success := true, hold_id := some hold, raw := some [("src", "reserve")] },
    confirm := fun _ _ => { success := false, raw := some [("error", "card_declined")] },
    cancel_hold := fun _ => none }

/-- A provider whose `cancel_hold` returns normally but reports failure. -/
def cancelFalseProvider : Provider :=
  { reserve := fun _ => { success := true, hold_id := some "H", raw := some [("src", "reserve")] },
    confirm := fun _ _ => { success := false, raw := some [("error", "card_declined")] },
    cancel_hold := fun _ => some false }

/-- An empty provider mapping. -/
def noProviders : Providers := fun _ => none

/-- C1 counterexample input: one item still `pending` at `ConfirmAll`. -/
def c1req : BookingRequest := baseRequest [baseItem "a" ItemType.flight]

/-- C2 provider mapping: flight succeeds everywhere, hotel fails confirm. -/
def c2providers : Providers := fun t =>
  match t with
  | ItemType.flight => some (goodProvider "HF" "CF")
  | ItemType.hotel => some (confirmFailProvider "HH")
  | _ => none

/-- C2 input: a pending flight and a pending hotel. -/
def c2req : BookingRequest :=
  baseRequest [baseItem "fl" ItemType.flight, baseItem "ho" ItemType.hotel]

/-- C4 input: a held-then-failed hotel whose cancellation will throw. -/
def c4item : BookingItem :=
  { baseItem "it4" ItemType.hotel with status := Status.failed, hold_id := some "H4" }

def c4req : BookingRequest := baseRequest [c4item]

def c4providers : Providers := fun t =>
  match t with
  | ItemType.hotel => some (cancelThrowProvider "H4")
  | _ => none

/-- C5 counterexample input: a held cab whose `cancel_hold` returns `False`. -/
def c5item : BookingItem :=
  { baseItem "it5" ItemType.cab with status := Status.held, hold_id := some "H5" }

def c5req : BookingRequest := baseRequest [c5item]

def c5providers : Providers := fun t =>
  match t with
  | ItemType.cab => some cancelFalseProvider
  | _ => none

/-- C6 counterexample input: an already-confirmed flight. -/
def c6item : BookingItem :=
  { baseItem "it6" ItemType.flight with
      status := Status.confirmed
      hold_id := some "H-old"
      confirmed_id := some "C-old" }

def c6req : BookingRequest := baseRequest [c6item]

def c6providers : Providers := fun t =>
  match t with
  | ItemType.flight => some (goodProvider "H-new" "C-new")
  | _ => none

/-- C10 counterexample input: a caller-constructed `held` item whose
`item_type` has no mapped provider. -/
def c10item : BookingItem :=
  { baseItem "it10" ItemType.attraction with status := Status.held, hold_id := some "H10" }

def c10req : BookingRequest := baseRequest [c10item]

/-- Witness fixture: a single held flight whose provider confirms. -/
def wHeldItem : BookingItem :=
  { baseItem "wfl" ItemType.flight with
      status := Status.held
      hold_id := some "WH"
      meta := [("src", "reserve")] }

def wHeldReq : BookingRequest := baseRequest [wHeldItem]

def wProviders : Providers := fun t =>
  match t with
  | ItemType.flight => some (goodProvider "WH" "WC")
  | _ => none

/-- Witness fixture: a held flight whose provider rejects confirmation. -/
def wFailReq : BookingRequest :=
  { baseRequest [wHeldItem] with itinerary_id := "itin2" }

def wFailProviders : Providers := fun t =>
  match t with
  | ItemType.flight => some (confirmFailProvider "WH")
  | _ => none

/-- C8 fixture: an attraction with no mapped provider next to a flight. -/
def c8req : BookingRequest :=
  baseRequest [baseItem "at" ItemType.attraction, baseItem "fl" ItemType.flight]

def c8providers : Providers := fun t =>
  match t with
  | ItemType.flight => some (goodProvider "H8" "C8")
  | _ => none

/-- The item of `c1req` after `reserve_all` under `noProviders`. -/
def c3resItem : BookingItem :=
  { baseItem "a" ItemType.flight with
      status := Status.failed
      meta := [("error", "no_provider")] }

/-- `c8req` after `reserve_all` under `c8providers`. -/
def c8res : BookingRequest :=
  { c8req with items :=
      [{ baseItem "at" ItemType.attraction with
           status := Status.failed
           meta := [("error", "no_provider")] },
       { baseItem "fl" ItemType.flight with
           status := Status.held
           hold_id := some "H8"
           meta := [("src", "reserve")] }] }

/-- `wFailReq` after `confirm_all` under `wFailProviders`: the confirm
rejection is recorded, then compensation overwrites `failed` with
`cancelled`. -/
def wFailRes : BookingRequest :=
  { wFailReq with
      items := [{ wHeldItem with
                    status := Status.cancelled
                    meta := [("src", "reserve"), ("error", "card_declined")] }]
      status := ReqStatus.failed }

/-! ### Helper lemmas about the loop combinator and dict updates -/

theorem mapOpt_some_length {α β : Type} (f : α → Option β) :
    ∀ (l : List α) (l' : List β), mapOpt f l = some l' → l'.length = l.length := by
  intro l
  induction l with
  | nil =>
    intro l' h
    simp only [mapOpt, Option.some.injEq] at h
    subst h
    rfl
  | cons a as ih =>
    intro l' h
    simp only [mapOpt] at h
    cases hf : f a with
    | none => rw [hf] at h; exact absurd h (by simp)
    | some b =>
      rw [hf] at h
      cases hm : mapOpt f as with
      | none => rw [hm] at h; exact absurd h (by simp)
      | some bs =>
        rw [hm] at h
        simp only [Option.some.injEq] at h
        subst h
        simp [ih bs hm]

theorem mapOpt_some_get {α β : Type} (f : α → Option β) :
    ∀ (l : List α) (l' : List β), mapOpt f l = some l' →
      ∀ (i : Nat) (h : i < l.length) (h' : i < l'.length),
        f (l.get ⟨i, h⟩) = some (l'.get ⟨i, h'⟩) := by
  intro l
  induction l with
  | nil =>
    intro l' _ i h
    exact absurd h (by simp)
  | cons a as ih =>
    intro l' hm i h h'
    simp only [mapOpt] at hm
    cases hf : f a with
    | none => rw [hf] at hm; exact absurd hm (by simp)
    | some b =>
      rw [hf] at hm
      cases hr : mapOpt f as with
      | none => rw [hr] at hm; exact absurd hm (by simp)
      | some bs =>
        rw [hr] at hm
        simp only [Option.some.injEq] at hm
        subst hm
        cases i with
        | zero => simpa using hf
        | succ j =>
          simp only [List.get_cons_succ]
          exact ih bs hr j (by simpa using h) (by simpa using h')

theorem mapOpt_some_mem {α β : Type} (f : α → Option β) (l : List α) (l' : List β)
    (hm : mapOpt f l = some l') : ∀ b ∈ l', ∃ a ∈ l, f a = some b := by
  intro b hb
  have hlen := mapOpt_some_length f l l' hm
  obtain ⟨⟨i, hi⟩, hget⟩ := List.mem_iff_get.mp hb
  refine ⟨l.get ⟨i, hlen ▸ hi⟩, List.get_mem _ _ _, ?_⟩
  rw [mapOpt_some_get f l l' hm i (hlen ▸ hi) hi, hget]

theorem mapOpt_some_mem_fwd {α β : Type} (f : α → Option β) (l : List α) (l' : List β)
    (hm : mapOpt f l = some l') : ∀ a ∈ l, ∃ b ∈ l', f a = some b := by
  intro a ha
  have hlen := mapOpt_some_length f l l' hm
  obtain ⟨⟨i, hi⟩, hget⟩ := List.mem_iff_get.mp ha
  refine ⟨l'.get ⟨i, hlen.symm ▸ hi⟩, List.get_mem _ _ _, ?_⟩
  rw [← hget]
  exact mapOpt_some_get f l l' hm i hi (hlen.symm ▸ hi)

theorem rawLookup_rawSet (m : RawMap) (k v : String) (k' : String) :
    rawLookup (rawSet m k v) k' = if k' = k then some v else rawLookup m k' := by
  induction m with
  | nil =>
    by_cases hk : k' = k
    · simp [rawSet, rawLookup, hk]
    · simp [rawSet, rawLookup, hk, Ne.symm hk]
  | cons p rest ih =>
    by_cases hp : p.1 = k
    · by_cases hk : k' = k
      · simp [rawSet, rawLookup, hp, hk]
      · simp [rawSet, rawLookup, hp, hk, Ne.symm hk]
    · by_cases hpk' : p.1 = k'
      · have hk : ¬ k' = k := fun hc => hp (hpk'.trans hc)
        simp [rawSet, rawLookup, hp, hpk', hk]
      · simp [rawSet, rawLookup, hp, hpk', ih]

theorem rawLookup_eq_none (m : RawMap) (k : String) (h : k ∉ m.map Prod.fst) :
    rawLookup m k = none := by
  induction m with
  | nil => rfl
  | cons p rest ih =>
    simp only [List.map_cons, List.mem_cons, not_or] at h
    have h1 : ¬ p.1 = k := fun hc => h.1 hc.symm
    simp [rawLookup, h1, ih h.2]

theorem rawUpdate_cons (m : RawMap) (p : String × String) (rest : RawMap) :
    rawUpdate m (p :: rest) = rawUpdate (rawSet m p.1 p.2) rest := by
  simp [rawUpdate, List.foldl_cons]

theorem rawLookup_rawUpdate (m new : RawMap) (hnd : (new.map Prod.fst).Nodup) (k : String) :
    rawLookup (rawUpdate m new) k =
      match rawLookup new k with
      | some v => some v
      | none => rawLookup m k := by
  induction new generalizing m with
  | nil => simp [rawUpdate, rawLookup]
  | cons p rest ih =>
    simp only [List.map_cons, List.nodup_cons] at hnd
    rw [rawUpdate_cons]
    rw [ih (rawSet m p.1 p.2) hnd.2]
    by_cases hk : p.1 = k
    · subst hk
      rw [rawLookup_eq_none rest p.1 hnd.1]
      simp [rawLookup, rawLookup_rawSet]
    · cases hrest : rawLookup rest k with
      | some v => simp [rawLookup, hk, hrest]
      | none => simp [rawLookup, hk, hrest, rawLookup_rawSet, Ne.symm hk]

/-! ### Per-item behaviour lemmas -/

theorem reserveItem_no_provider (providers : Providers) (item : BookingItem)
    (hp : providers item.item_type = none) :
    reserveItem providers item =
      some { item with status := Status.failed, meta := [("error", "no_provider")] } := by
  simp [reserveItem, hp]

theorem reserveItem_some_status (providers : Providers) (item it' : BookingItem)
    (h : reserveItem providers item = some it') :
    it'.status = Status.held ∨ it'.status = Status.failed := by
  unfold reserveItem at h
  cases hp : providers item.item_type with
  | none =>
    rw [hp] at h
    simp only [Option.some.injEq] at h
    subst h
    exact Or.inr rfl
  | some p =>
    rw [hp] at h
    simp only at h
    by_cases hs : (p.reserve item).success
    · rw [if_pos hs] at h
      cases hr : (p.reserve item).raw with
      | none => rw [hr] at h; exact absurd h (by simp)
      | some r =>
        rw [hr] at h
        simp only [Option.some.injEq] at h
        subst h
        exact Or.inl rfl
    · rw [if_neg hs] at h
      simp only [Option.some.injEq] at h
      subst h
      exact Or.inr rfl

theorem reserveItem_held_mapped (providers : Providers) (item it' : BookingItem)
    (h : reserveItem providers item = some it') (hs : it'.status = Status.held) :
    (providers item.item_type).isSome := by
  unfold reserveItem at h
  cases hp : providers item.item_type with
  | none =>
    rw [hp] at h
    simp only [Option.some.injEq] at h
    subst h
    exact absurd hs (by simp)
  | some p => simp

theorem confirmItem_skip (providers : Providers) (pa : PaymentAuth) (item : BookingItem)
    (h : item.status ≠ Status.held) : confirmItem providers pa item = some item := by
  simp [confirmItem, h]

theorem confirmItem_held (providers : Providers) (pa : PaymentAuth) (item : BookingItem)
    (p : Provider) (hh : item.status = Status.held)
    (hp : providers item.item_type = some p) :
    confirmItem providers pa item =
      some (if (p.confirm item pa).success then
        { item with confirmed_id := (p.confirm item pa).confirmed_id,
                    status := Status.confirmed,
                    meta := rawUpdate item.meta ((p.confirm item pa).raw.getD []) }
      else
        { item with status := Status.failed,
                    meta := rawUpdate item.meta
                      ((p.confirm item pa).raw.getD [("error", "confirm_failed")]) }) := by
  simp only [confirmItem, hh, ne_eq, not_true_eq_false, if_false, hp]
  by_cases hs : (p.confirm item pa).success
  · simp [hs]
  · simp [hs]

theorem confirmItem_none (providers : Providers) (pa : PaymentAuth) (item : BookingItem)
    (h : confirmItem providers pa item = none) :
    item.status = Status.held ∧ providers item.item_type = none := by
  by_cases hh : item.status = Status.held
  · refine ⟨hh, ?_⟩
    cases hp : providers item.item_type with
    | none => rfl
    | some p =>
      rw [confirmItem_held providers pa item p hh hp] at h
      exact absurd h (by simp)
  · rw [confirmItem_skip providers pa item hh] at h
    exact absurd h (by simp)

theorem compensateItemCall_no_hold (providers : Providers) (item : BookingItem)
    (h : item.hold_id = none ∨ item.hold_id = some "") :
    compensateItemCall providers item = (item, none) := by
  cases h with
  | inl h => simp [compensateItemCall, h]
  | inr h => simp [compensateItemCall, h]

theorem compensateItemCall_cases (providers : Providers) (item : BookingItem) :
    (compensateItemCall providers item).1 = item ∨
    ((compensateItemCall providers item).1 = { item with status := Status.cancelled } ∧
      item.status ≠ Status.confirmed) := by
  cases hh : item.hold_id with
  | none => exact Or.inl (by simp [compensateItemCall, hh])
  | some h =>
    by_cases he : h = ""
    · exact Or.inl (by simp [compensateItemCall, hh, he])
    · cases hp : providers item.item_type with
      | none => exact Or.inl (by simp [compensateItemCall, hh, he, hp])
      | some p =>
        cases hc : p.cancel_hold h with
        | none => exact Or.inl (by simp [compensateItemCall, hh, he, hp, hc])
        | some b =>
          by_cases hs : item.status = Status.confirmed
          · exact Or.inl (by simp [compensateItemCall, hh, he, hp, hc, hs])
          · exact Or.inr ⟨by simp [compensateItemCall, hh, he, hp, hc, hs], hs⟩

theorem compensateItemCall_confirmed (providers : Providers) (item : BookingItem)
    (hs : item.status = Status.confirmed) :
    (compensateItemCall providers item).1 = item := by
  rcases compensateItemCall_cases providers item with h | ⟨_, hne⟩
  · exact h
  · exact absurd hs hne

theorem compensateItemCall_throw (providers : Providers) (item : BookingItem)
    (p : Provider) (h : String) (hh : item.hold_id = some h) (he : h ≠ "")
    (hp : providers item.item_type = some p) (hc : p.cancel_hold h = none) :
    compensateItemCall providers item = (item, some (item.item_id, h)) := by
  simp [compensateItemCall, hh, he, hp, hc]

theorem compensateItemCall_returned (providers : Providers) (item : BookingItem)
    (p : Provider) (h : String) (b : Bool) (hh : item.hold_id = some h) (he : h ≠ "")
    (hp : providers item.item_type = some p) (hc : p.cancel_hold h = some b)
    (hs : item.status ≠ Status.confirmed) :
    compensateItemCall providers item =
      ({ item with status := Status.cancelled }, some (item.item_id, h)) := by
  simp [compensateItemCall, hh, he, hp, hc, hs]

theorem compensateItemCall_no_provider (providers : Providers) (item : BookingItem)
    (hp : providers item.item_type = none) :
    compensateItemCall providers item = (item, none) := by
  cases hh : item.hold_id with
  | none => simp [compensateItemCall, hh]
  | some h =>
    by_cases he : h = ""
    · simp [compensateItemCall, hh, he]
    · simp [compensateItemCall, hh, he, hp]

theorem compensateItemCall_snd_eq_some (providers : Providers) (item : BookingItem)
    (id h : String) :
    (compensateItemCall providers item).2 = some (id, h) ↔
      id = item.item_id ∧ item.hold_id = some h ∧ h ≠ "" ∧
        (providers item.item_type).isSome := by
  constructor
  · intro hsnd
    cases hh : item.hold_id with
    | none => rw [compensateItemCall_no_hold providers item (Or.inl hh)] at hsnd; simp at hsnd
    | some h' =>
      by_cases he : h' = ""
      · subst he
        rw [compensateItemCall_no_hold providers item (Or.inr hh)] at hsnd
        simp at hsnd
      · cases hp : providers item.item_type with
        | none => rw [compensateItemCall_no_provider providers item hp] at hsnd; simp at hsnd
        | some p =>
          have hcall : (compensateItemCall providers item).2 = some (item.item_id, h') := by
            cases hc : p.cancel_hold h' with
            | none => rw [compensateItemCall_throw providers item p h' hh he hp hc]
            | some b =>
              by_cases hs : item.status = Status.confirmed
              · simp [compensateItemCall, hh, he, hp, hc, hs]
              · rw [compensateItemCall_returned providers item p h' b hh he hp hc hs]
          rw [hcall] at hsnd
          simp only [Option.some.injEq, Prod.mk.injEq] at hsnd
          obtain ⟨h1, h2⟩ := hsnd
          subst h2
          exact ⟨h1.symm, rfl, he, by simp [hp]⟩
  · rintro ⟨hid, hh, he, hps⟩
    obtain ⟨p, hp⟩ := Option.isSome_iff_exists.mp hps
    cases hc : p.cancel_hold h with
    | none => rw [compensateItemCall_throw providers item p h hh he hp hc, hid]
    | some b =>
      by_cases hs : item.status = Status.confirmed
      · simp [compensateItemCall, hh, he, hp, hc, hs, hid]
      · rw [compensateItemCall_returned providers item p h b hh he hp hc hs, hid]

/-! ### Request-level decomposition lemmas -/

theorem reserve_all_eq_some (providers : Providers) (req req' : BookingRequest)
    (h : reserve_all providers req = some req') :
    ∃ items, mapOpt (reserveItem providers) req.items = some items ∧
      req' = { req with items := items } := by
  unfold reserve_all at h
  cases hm : mapOpt (reserveItem providers) req.items with
  | none => rw [hm] at h; exact absurd h (by simp)
  | some items =>
    rw [hm] at h
    simp only [Option.some.injEq] at h
    exact ⟨items, rfl, h.symm⟩

theorem confirm_all_eq_some (providers : Providers) (pa : PaymentAuth)
    (req req' : BookingRequest) (h : confirm_all providers pa req = some req') :
    ∃ items, mapOpt (confirmItem providers pa) req.items = some items ∧
      ((items.any (fun i => i.status == Status.failed) = true ∧
        req' = { compensate providers { req with items := items } with
                   status := ReqStatus.failed }) ∨
       (items.any (fun i => i.status == Status.failed) = false ∧
        req' = { req with items := items, status := ReqStatus.confirmed })) := by
  cases hm : mapOpt (confirmItem providers pa) req.items with
  | none => simp [confirm_all, hm] at h
  | some items =>
    simp only [confirm_all, hm] at h
    refine ⟨items, rfl, ?_⟩
    split at h
    next hcond =>
      simp only [Option.some.injEq] at h
      exact Or.inl ⟨hcond, h.symm⟩
    next hcond =>
      simp only [Option.some.injEq] at h
      exact Or.inr ⟨by simpa using hcond, h.symm⟩

theorem compensate_items_length (providers : Providers) (req : BookingRequest) :
    (compensate providers req).items.length = req.items.length := by
  simp [compensate]

theorem compensate_items_get (providers : Providers) (req : BookingRequest)
    (i : Nat) (h : i < req.items.length) (h' : i < (compensate providers req).items.length) :
    (compensate providers req).items.get ⟨i, h'⟩ =
      (compensateItemCall providers (req.items.get ⟨i, h⟩)).1 := by
  simp [compensate]

theorem compensate_calls_mem (providers : Providers) (req : BookingRequest)
    (id h : String) :
    (id, h) ∈ compensate_calls providers req ↔
      ∃ item ∈ req.items, (compensateItemCall providers item).2 = some (id, h) := by
  simp [compensate_calls, List.mem_filterMap]

theorem any_failed_iff (items : List BookingItem) :
    items.any (fun i => i.status == Status.failed) = true ↔
      ∃ i ∈ items, i.status = Status.failed := by
  simp [List.any_eq_true]

theorem mapOpt_eq_none {α β : Type} (f : α → Option β) :
    ∀ (l : List α), mapOpt f l = none → ∃ a ∈ l, f a = none := by
  intro l
  induction l with
  | nil => intro h; exact absurd h (by simp [mapOpt])
  | cons a as ih =>
    intro h
    simp only [mapOpt] at h
    cases hf : f a with
    | none => exact ⟨a, List.mem_cons_self a as, hf⟩
    | some b =>
      rw [hf] at h
      cases hm : mapOpt f as with
      | none =>
        obtain ⟨x, hx, hfx⟩ := ih hm
        exact ⟨x, List.mem_cons_of_mem a hx, hfx⟩
      | some bs => rw [hm] at h; exact absurd h (by simp)

theorem itemFrameEq_refl (a : BookingItem) : itemFrameEq a a := by
  simp [itemFrameEq]

theorem itemFrameEq_trans {a b c : BookingItem}
    (h1 : itemFrameEq a b) (h2 : itemFrameEq b c) : itemFrameEq a c := by
  obtain ⟨x1, x2, x3, x4, x5, x6, x7, x8⟩ := h1
  obtain ⟨y1, y2, y3, y4, y5, y6, y7, y8⟩ := h2
  exact ⟨x1.trans y1, x2.trans y2, x3.trans y3, x4.trans y4,
         x5.trans y5, x6.trans y6, x7.trans y7, x8.trans y8⟩

theorem reserveItem_frame (providers : Providers) (item it' : BookingItem)
    (h : reserveItem providers item = some it') : itemFrameEq item it' := by
  unfold reserveItem at h
  cases hp : providers item.item_type with
  | none =>
    rw [hp] at h
    simp only [Option.some.injEq] at h
    subst h
    simp [itemFrameEq]
  | some p =>
    rw [hp] at h
    simp only at h
    by_cases hs : (p.reserve item).success
    · rw [if_pos hs] at h
      cases hr : (p.reserve item).raw with
      | none => rw [hr] at h; exact absurd h (by simp)
      | some r =>
        rw [hr] at h
        simp only [Option.some.injEq] at h
        subst h
        simp [itemFrameEq]
    · rw [if_neg hs] at h
      simp only [Option.some.injEq] at h
      subst h
      simp [itemFrameEq]

theorem confirmItem_held_success (providers : Providers) (pa : PaymentAuth)
    (item : BookingItem) (p : Provider) (hh : item.status = Status.held)
    (hp : providers item.item_type = some p)
    (hs : (p.confirm item pa).success = true) :
    confirmItem providers pa item =
      some { item with confirmed_id := (p.confirm item pa).confirmed_id,
                       status := Status.confirmed,
                       meta := rawUpdate item.meta ((p.confirm item pa).raw.getD []) } := by
  rw [confirmItem_held providers pa item p hh hp, if_pos hs]

theorem confirmItem_held_failure (providers : Providers) (pa : PaymentAuth)
    (item : BookingItem) (p : Provider) (hh : item.status = Status.held)
    (hp : providers item.item_type = some p)
    (hs : (p.confirm item pa).success = false) :
    confirmItem providers pa item =
      some { item with status := Status.failed,
                       meta := rawUpdate item.meta
                         ((p.confirm item pa).raw.getD [("error", "confirm_failed")]) } := by
  rw [confirmItem_held providers pa item p hh hp, if_neg (by simp [hs])]

theorem confirmItem_frame (providers : Providers) (pa : PaymentAuth)
    (item it' : BookingItem) (h : confirmItem providers pa item = some it') :
    itemFrameEq item it' := by
  by_cases hh : item.status = Status.held
  · cases hp : providers item.item_type with
    | none =>
      exfalso
      simp [confirmItem, hh, hp] at h
    | some p =>
      rw [confirmItem_held providers pa item p hh hp] at h
      simp only [Option.some.injEq] at h
      subst h
      by_cases hs : (p.confirm item pa).success
      · simp [hs, itemFrameEq]
      · simp [hs, itemFrameEq]
  · rw [confirmItem_skip providers pa item hh] at h
    simp only [Option.some.injEq] at h
    subst h
    exact itemFrameEq_refl item

theorem confirmItem_status (providers : Providers) (pa : PaymentAuth)
    (item it' : BookingItem) (hh : item.status = Status.held)
    (h : confirmItem providers pa item = some it') :
    it'.status = Status.confirmed ∨
      (it'.status = Status.failed ∧ it'.hold_id = item.hold_id ∧
        it'.item_type = item.item_type ∧ it'.item_id = item.item_id) := by
  cases hp : providers item.item_type with
  | none =>
    exfalso
    simp [confirmItem, hh, hp] at h
  | some p =>
    rw [confirmItem_held providers pa item p hh hp] at h
    simp only [Option.some.injEq] at h
    subst h
    by_cases hs : (p.confirm item pa).success
    · simp [hs]
    · simp [hs]

theorem compensateItemCall_fst_fields (providers : Providers) (item : BookingItem) :
    (compensateItemCall providers item).1.meta = item.meta ∧
    (compensateItemCall providers item).1.hold_id = item.hold_id ∧
    (compensateItemCall providers item).1.confirmed_id = item.confirmed_id ∧
    itemFrameEq item (compensateItemCall providers item).1 := by
  rcases compensateItemCall_cases providers item with h | ⟨h, _⟩ <;>
    rw [h] <;> simp [itemFrameEq]

theorem compensateItemCall_fst_status (providers : Providers) (item : BookingItem) :
    (compensateItemCall providers item).1.status = item.status ∨
    ((compensateItemCall providers item).1.status = Status.cancelled ∧
      item.status ≠ Status.confirmed) := by
  rcases compensateItemCall_cases providers item with h | ⟨h, hne⟩
  · rw [h]; exact Or.inl rfl
  · rw [h]; exact Or.inr ⟨rfl, hne⟩

/-! ### Claims -/

/-- C3. No pending after reserve: for every request whose items are all
initially `pending` and every provider mapping, after `reserve_all`
returns, every item's status is exactly `held` or `failed`; no item
remains `pending`. -/
theorem C3_no_pending_after_reserve (providers : Providers) (req req' : BookingRequest)
    (_hpending : ∀ i ∈ req.items, i.status = Status.pending)
    (hrun : reserve_all providers req = some req') :
    ∀ i ∈ req'.items, i.status = Status.held ∨ i.status = Status.failed := by
  obtain ⟨items, hm, hreq⟩ := reserve_all_eq_some providers req req' hrun
  subst hreq
  intro i hi
  obtain ⟨a, _, hfa⟩ := mapOpt_some_mem (reserveItem providers) req.items items hm i hi
  exact reserveItem_some_status providers a i hfa

/-- Witness for C3 at a concrete one-item request with no providers. -/
theorem C3_no_pending_after_reserve_witness :
    c3resItem.status = Status.held ∨ c3resItem.status = Status.failed :=
  C3_no_pending_after_reserve noProviders c1req (baseRequest [c3resItem])
    (by decide) (by decide) c3resItem (by decide)

/-- C8. Missing provider handling: `reserve_all` completes item by item
(each output item is `reserveItem` of the corresponding input item, so
sibling items are unaffected); an item whose `item_type` is unmapped
never raises (its `reserveItem` is `some`), and it ends with status
`failed` and meta `{error: "no_provider"}`. -/
theorem C8_missing_provider (providers : Providers) (req req' : BookingRequest)
    (hrun : reserve_all providers req = some req') :
    req'.items.length = req.items.length ∧
    (∀ (j : Nat) (hj : j < req.items.length) (hj' : j < req'.items.length),
      reserveItem providers (req.items.get ⟨j, hj⟩) = some (req'.items.get ⟨j, hj'⟩)) ∧
    (∀ item : BookingItem, providers item.item_type = none →
      reserveItem providers item =
        some { item with status := Status.failed, meta := [("error", "no_provider")] }) ∧
    (∀ (i : Nat) (hi : i < req.items.length) (hi' : i < req'.items.length),
      providers ((req.items.get ⟨i, hi⟩).item_type) = none →
      (req'.items.get ⟨i, hi'⟩).status = Status.failed ∧
      (req'.items.get ⟨i, hi'⟩).meta = [("error", "no_provider")]) := by
  obtain ⟨items, hm, hreq⟩ := reserve_all_eq_some providers req req' hrun
  subst hreq
  refine ⟨mapOpt_some_length _ _ _ hm, ?_, ?_, ?_⟩
  · intro j hj hj'
    exact mapOpt_some_get _ _ _ hm j hj hj'
  · intro item hp
    exact reserveItem_no_provider providers item hp
  · intro i hi hi' hp
    have hfi := mapOpt_some_get _ _ _ hm i hi hi'
    rw [reserveItem_no_provider providers _ hp] at hfi
    simp only [Option.some.injEq] at hfi
    rw [← hfi]
    exact ⟨rfl, rfl⟩

/-- Witness for C8 at a request with an unmapped attraction and a
mapped flight. -/
theorem C8_missing_provider_witness :
    (c8res.items.get ⟨0, by decide⟩).status = Status.failed ∧
    (c8res.items.get ⟨0, by decide⟩).meta = [("error", "no_provider")] :=
  (C8_missing_provider c8providers c8req c8res (by decide)).2.2.2 0
    (by decide) (by decide) rfl

/-- C10. Unguarded provider lookup in `confirm_all`: whenever every
`held` item's `item_type` is mapped, `confirm_all` completes (the
missing-provider branch is unreachable); `reserve_all` itself only ever
produces `held` items with mapped types; and on a caller-constructed
request holding a `held` item with an unmapped `item_type`,
`confirm_all` raises (`none`) instead of marking the item `failed`. -/
theorem C10_unguarded_lookup :
    (∀ (providers : Providers) (pa : PaymentAuth) (req : BookingRequest),
      (∀ i ∈ req.items, i.status = Status.held → (providers i.item_type).isSome) →
      (confirm_all providers pa req).isSome) ∧
    (∀ (providers : Providers) (req req' : BookingRequest),
      reserve_all providers req = some req' →
      ∀ i ∈ req'.items, i.status = Status.held → (providers i.item_type).isSome) ∧
    confirm_all noProviders "pay-10" c10req = none := by
  refine ⟨?_, ?_, by decide⟩
  · intro providers pa req hmapped
    cases hm : mapOpt (confirmItem providers pa) req.items with
    | none =>
      exfalso
      obtain ⟨a, ha, hfa⟩ := mapOpt_eq_none _ _ hm
      obtain ⟨hheld, hnone⟩ := confirmItem_none providers pa a hfa
      have := hmapped a ha hheld
      rw [hnone] at this
      exact absurd this (by simp)
    | some items =>
      simp only [confirm_all, hm]
      split <;> simp
  · intro providers req req' hrun i hi hheld
    obtain ⟨items, hm, hreq⟩ := reserve_all_eq_some providers req req' hrun
    subst hreq
    obtain ⟨a, _, hfa⟩ := mapOpt_some_mem (reserveItem providers) req.items items hm i hi
    have hty : a.item_type = i.item_type := (reserveItem_frame providers a i hfa).2.1
    rw [← hty]
    exact reserveItem_held_mapped providers a i hfa hheld

/-- Witness for C10: the mapped-held precondition at a concrete held
request makes `confirm_all` complete. -/
theorem C10_unguarded_lookup_witness :
    (confirm_all wProviders "pw" wHeldReq).isSome =
      true :=
  C10_unguarded_lookup.1 wProviders "pw" wHeldReq (by decide)

/-- C9. Frame: `reserve_all`, `confirm_all` and `compensate` mutate only
`status`, `hold_id`, `confirmed_id` and `meta` of items and the request's
`status`; every other item field and request field, and the number and
order of items, are unchanged. -/
theorem C9_frame (providers : Providers) (pa : PaymentAuth) (req : BookingRequest) :
    (∀ req', reserve_all providers req = some req' → reqFrameEq req req') ∧
    (∀ req', confirm_all providers pa req = some req' → reqFrameEq req req') ∧
    reqFrameEq req (compensate providers req) := by
  refine ⟨?_, ?_, ?_⟩
  · intro req' hrun
    obtain ⟨items, hm, hreq⟩ := reserve_all_eq_some providers req req' hrun
    subst hreq
    refine ⟨rfl, rfl, rfl, rfl, rfl, (mapOpt_some_length _ _ _ hm).symm, ?_⟩
    intro i h h'
    exact reserveItem_frame providers _ _ (mapOpt_some_get _ _ _ hm i h h')
  · intro req' hrun
    obtain ⟨items, hm, hdisj⟩ := confirm_all_eq_some providers pa req req' hrun
    have hlen := mapOpt_some_length _ _ _ hm
    rcases hdisj with ⟨_, hreq⟩ | ⟨_, hreq⟩
    · subst hreq
      refine ⟨rfl, rfl, rfl, rfl, rfl, by simp [compensate, hlen], ?_⟩
      intro i h h'
      have h2 : i < items.length := by rw [hlen]; exact h
      have hfi := mapOpt_some_get _ _ _ hm i h h2
      have hframe1 := confirmItem_frame providers pa _ _ hfi
      have hframe2 := (compensateItemCall_fst_fields providers (items.get ⟨i, h2⟩)).2.2.2
      rw [compensate_items_get providers { req with items := items } i h2 h']
      exact itemFrameEq_trans hframe1 hframe2
    · subst hreq
      refine ⟨rfl, rfl, rfl, rfl, rfl, hlen.symm, ?_⟩
      intro i h h'
      exact confirmItem_frame providers pa _ _ (mapOpt_some_get _ _ _ hm i h h')
  · refine ⟨rfl, rfl, rfl, rfl, rfl, (compensate_items_length providers req).symm, ?_⟩
    intro i h h'
    rw [compensate_items_get providers req i h h']
    exact (compensateItemCall_fst_fields providers _).2.2.2

/-- Witness for C9 at a concrete reserve run. -/
theorem C9_frame_witness : reqFrameEq c8req c8res :=
  (C9_frame c8providers "pay-w9" c8req).1 c8res (by decide)

/-- C7. Merge, not overwrite: for a `held` item processed by
`confirm_all` whose provider's confirm response carries a raw payload
`r` (duplicate-free, as any Python dict is), the item's meta afterwards
is exactly `dict.update` of its pre-confirm meta with `r`: a lookup
finds `r`'s value for keys `r` supplies and the old value for every
other key — on confirm success and on confirm failure alike. -/
theorem C7_merge_not_overwrite (providers : Providers) (pa : PaymentAuth)
    (req req' : BookingRequest) (hrun : confirm_all providers pa req = some req')
    (i : Nat) (h : i < req.items.length) (h' : i < req'.items.length)
    (p : Provider) (r : RawMap)
    (hheld : (req.items.get ⟨i, h⟩).status = Status.held)
    (hp : providers (req.items.get ⟨i, h⟩).item_type = some p)
    (hraw : (p.confirm (req.items.get ⟨i, h⟩) pa).raw = some r)
    (hnd : (r.map Prod.fst).Nodup) :
    (req'.items.get ⟨i, h'⟩).meta = rawUpdate (req.items.get ⟨i, h⟩).meta r ∧
    ∀ k, rawLookup (req'.items.get ⟨i, h'⟩).meta k =
      match rawLookup r k with
      | some v => some v
      | none => rawLookup (req.items.get ⟨i, h⟩).meta k := by
  obtain ⟨items, hm, hdisj⟩ := confirm_all_eq_some providers pa req req' hrun
  have hlen := mapOpt_some_length _ _ _ hm
  have hmeta : ∀ (h2 : i < items.length),
      (items.get ⟨i, h2⟩).meta = rawUpdate (req.items.get ⟨i, h⟩).meta r := by
    intro h2
    have hfi := mapOpt_some_get _ _ _ hm i h h2
    rw [confirmItem_held providers pa _ p hheld hp] at hfi
    simp only [Option.some.injEq] at hfi
    by_cases hs : (p.confirm (req.items.get ⟨i, h⟩) pa).success
    · rw [if_pos hs] at hfi
      rw [← hfi]
      show rawUpdate (req.items.get ⟨i, h⟩).meta
          ((p.confirm (req.items.get ⟨i, h⟩) pa).raw.getD []) =
        rawUpdate (req.items.get ⟨i, h⟩).meta r
      rw [hraw]
      rfl
    · rw [if_neg hs] at hfi
      rw [← hfi]
      show rawUpdate (req.items.get ⟨i, h⟩).meta
          ((p.confirm (req.items.get ⟨i, h⟩) pa).raw.getD [("error", "confirm_failed")]) =
        rawUpdate (req.items.get ⟨i, h⟩).meta r
      rw [hraw]
      rfl
  have hmain : (req'.items.get ⟨i, h'⟩).meta = rawUpdate (req.items.get ⟨i, h⟩).meta r := by
    rcases hdisj with ⟨_, hreq⟩ | ⟨_, hreq⟩
    · subst hreq
      have h2 : i < items.length := by rw [hlen]; exact h
      rw [compensate_items_get providers { req with items := items } i h2 h']
      rw [(compensateItemCall_fst_fields providers (items.get ⟨i, h2⟩)).1]
      exact hmeta h2
    · subst hreq
      exact hmeta h'
  refine ⟨hmain, ?_⟩
  intro k
  rw [hmain]
  exact rawLookup_rawUpdate (req.items.get ⟨i, h⟩).meta r hnd k

/-- Witness for C7 at the concrete confirm-failure run: the reserve-phase
key survives and the confirm error key is added. -/
theorem C7_merge_not_overwrite_witness :
    (wFailRes.items.get ⟨0, by decide⟩).meta =
      rawUpdate (wFailReq.items.get ⟨0, by decide⟩).meta [("error", "card_declined")] :=
  (C7_merge_not_overwrite wFailProviders "pw" wFailReq wFailRes (by decide) 0
    (by decide) (by decide) (confirmFailProvider "WH") [("error", "card_declined")]
    (by decide) rfl rfl (by decide)).1

/-- Counterexample to C1 as stated: on a request whose single item is
still `pending` at `ConfirmAll`, `confirm_all` sets request.status =
`confirmed` although the item's status is not `confirmed`, so the
claimed equivalence fails. -/
theorem C1_counterexample :
    (confirm_all noProviders "pay-1" c1req).map
        (fun r => (r.status, r.items.map (fun i => i.status))) =
      some (ReqStatus.confirmed, [Status.pending]) ∧
    Status.pending ≠ Status.confirmed :=
  ⟨by decide, by decide⟩

/-- C1 (amended). All-or-nothing confirm for post-reserve requests: when
every item enters `ConfirmAll` as `held` or `failed` (the states
`ReserveAll` produces), request.status = `confirmed` iff every item is
`confirmed`; otherwise request.status = `failed`, every entry-`held`
item that did not confirm is `cancelled` provided its `CancelHold`
(on its truthy hold id, via its mapped provider) succeeded, and every
entry-`failed` item without a truthy hold id remains `failed`. -/
theorem C1_all_or_nothing_amended (providers : Providers) (pa : PaymentAuth)
    (req req' : BookingRequest)
    (hpre : ∀ i ∈ req.items, i.status = Status.held ∨ i.status = Status.failed)
    (hrun : confirm_all providers pa req = some req') :
    (req'.status = ReqStatus.confirmed ↔ ∀ i ∈ req'.items, i.status = Status.confirmed) ∧
    (req'.status = ReqStatus.confirmed ∨ req'.status = ReqStatus.failed) ∧
    (req'.status = ReqStatus.failed →
      req'.items.length = req.items.length ∧
      ∀ (i : Nat) (hi : i < req.items.length) (hi' : i < req'.items.length),
        (((req.items.get ⟨i, hi⟩).status = Status.held ∧
          (req'.items.get ⟨i, hi'⟩).status ≠ Status.confirmed ∧
          (∃ hd p, (req.items.get ⟨i, hi⟩).hold_id = some hd ∧ hd ≠ "" ∧
            providers (req.items.get ⟨i, hi⟩).item_type = some p ∧
            p.cancel_hold hd = some true)) →
          (req'.items.get ⟨i, hi'⟩).status = Status.cancelled) ∧
        (((req.items.get ⟨i, hi⟩).status = Status.failed ∧
          ((req.items.get ⟨i, hi⟩).hold_id = none ∨
            (req.items.get ⟨i, hi⟩).hold_id = some "")) →
          (req'.items.get ⟨i, hi'⟩).status = Status.failed)) := by
  obtain ⟨items, hm, hdisj⟩ := confirm_all_eq_some providers pa req req' hrun
  have hlen := mapOpt_some_length _ _ _ hm
  rcases hdisj with ⟨hany, hreq⟩ | ⟨hany, hreq⟩
  · subst hreq
    have hfc : ¬ (ReqStatus.failed = ReqStatus.confirmed) := by decide
    have hcf : ¬ (ReqStatus.confirmed = ReqStatus.failed) := by decide
    refine ⟨⟨fun hc => absurd hc hfc, fun hall => ?_⟩, Or.inr rfl, fun _ => ⟨?_, ?_⟩⟩
    · exfalso
      obtain ⟨itm, hitm, hfail⟩ := (any_failed_iff items).mp hany
      have hmem : (compensateItemCall providers itm).1 ∈
          (compensate providers { req with items := items }).items :=
        List.mem_map_of_mem _ hitm
      have hconf := hall _ hmem
      rcases compensateItemCall_fst_status providers itm with hsame | ⟨hcanc, _⟩
      · rw [hsame, hfail] at hconf
        exact absurd hconf (by decide)
      · rw [hcanc] at hconf
        exact absurd hconf (by decide)
    · show (compensate providers { req with items := items }).items.length = req.items.length
      rw [compensate_items_length]
      exact hlen
    · intro i hi hi'
      have h2 : i < items.length := by rw [hlen]; exact hi
      have hfi := mapOpt_some_get _ _ _ hm i hi h2
      have hgets := compensate_items_get providers { req with items := items } i h2 hi'
      constructor
      · rintro ⟨hheld, hnc, hd, p, hhd, hne, hp, hcancel⟩
        rw [confirmItem_held providers pa _ p hheld hp] at hfi
        simp only [Option.some.injEq] at hfi
        by_cases hs : (p.confirm (req.items.get ⟨i, hi⟩) pa).success
        · rw [if_pos hs] at hfi
          exfalso
          apply hnc
          rw [hgets, ← hfi]
          rw [compensateItemCall_confirmed providers _ rfl]
        · rw [if_neg hs] at hfi
          have hmid_hold : (items.get ⟨i, h2⟩).hold_id = some hd := by
            rw [← hfi]; exact hhd
          have hmid_ty : providers (items.get ⟨i, h2⟩).item_type = some p := by
            rw [← hfi]; exact hp
          have hfc2 : Status.failed ≠ Status.confirmed := by decide
          have hmid_st : (items.get ⟨i, h2⟩).status ≠ Status.confirmed := by
            rw [← hfi]; exact hfc2
          have hret := compensateItemCall_returned providers (items.get ⟨i, h2⟩) p hd true
            hmid_hold hne hmid_ty hcancel hmid_st
          rw [hgets, hret]
      · rintro ⟨hfail, hhold⟩
        have hskip := confirmItem_skip providers pa (req.items.get ⟨i, hi⟩)
          (by rw [hfail]; exact (by decide))
        rw [hskip] at hfi
        simp only [Option.some.injEq] at hfi
        have hnoh := compensateItemCall_no_hold providers (items.get ⟨i, h2⟩)
          (by rw [← hfi]; exact hhold)
        rw [hgets, hnoh, ← hfi]
        exact hfail
  · subst hreq
    have hnofail : ¬ ∃ x ∈ items, x.status = Status.failed := by
      rw [← any_failed_iff]
      simp [hany]
    have hcf2 : ¬ (ReqStatus.confirmed = ReqStatus.failed) := by decide
    refine ⟨⟨fun _ => ?_, fun _ => rfl⟩, Or.inl rfl, fun hf => absurd hf hcf2⟩
    intro itm hitm
    obtain ⟨a, ha, hfa⟩ := mapOpt_some_mem _ _ _ hm itm hitm
    rcases hpre a ha with hheld | hfail
    · rcases confirmItem_status providers pa a itm hheld hfa with hc | ⟨hf, _⟩
      · exact hc
      · exact absurd ⟨itm, hitm, hf⟩ hnofail
    · rw [confirmItem_skip providers pa a (by rw [hfail]; exact (by decide))] at hfa
      simp only [Option.some.injEq] at hfa
      subst hfa
      exact absurd ⟨a, hitm, hfail⟩ hnofail

/-- Witness for the amended C1 at a concrete one-item confirm-failure
run. -/
theorem C1_all_or_nothing_amended_witness :
    wFailRes.status = ReqStatus.confirmed ∨ wFailRes.status = ReqStatus.failed :=
  (C1_all_or_nothing_amended wFailProviders "pw" wFailReq wFailRes
    (by decide) (by decide)).2.1

/-- Counterexample to C2 as stated: in the claimed scenario (flight
fully succeeds, hotel confirm fails, reserves and CancelHold succeed),
the code leaves the flight `confirmed` (not `cancelled`: a confirmed
item is skipped by compensation's status overwrite) and overwrites the
hotel's `failed` with `cancelled` (not `failed`). -/
theorem C2_counterexample :
    ((reserve_all c2providers c2req).bind (confirm_all c2providers "pay-2")).map
        (fun r => (r.status, r.items.map (fun i => (i.status, i.confirmed_id)))) =
      some (ReqStatus.failed,
        [(Status.confirmed, some "CF"), (Status.cancelled, none)]) ∧
    Status.confirmed ≠ Status.cancelled ∧ Status.cancelled ≠ Status.failed :=
  ⟨by decide, by decide, by decide⟩

/-- C2 (amended). Two-item scenario, flight succeeds and hotel's confirm
fails (both reserves and `CancelHold` succeeding): after `ConfirmAll`
the flight item is `confirmed` (it keeps its confirmation even though
its hold's `CancelHold` is invoked during compensation), the hotel item
is `cancelled` (its confirm failure is overwritten by successful
compensation), and request.status = `failed`. -/
theorem C2_scenario_amended :
    ((reserve_all c2providers c2req).bind (confirm_all c2providers "pay-2")).map
        (fun r => (r.status, r.items.map (fun i => i.status))) =
      some (ReqStatus.failed, [Status.confirmed, Status.cancelled]) := by
  decide

/-- C4 evaluated at the failing input: `compensate` does invoke
`CancelHold` for the failed held item, but the thrown failure is
swallowed — the request comes back bit-for-bit unchanged — and
`confirm_all` returns only the mutated request with status `failed`:
no `{item_id, error}` compensation-failure record exists anywhere in
the saga result. -/
theorem C4_compensation_swallowed :
    compensate_calls c4providers c4req = [("it4", "H4")] ∧
    compensate c4providers c4req = c4req ∧
    (confirm_all c4providers "pay-4" c4req).map
        (fun r => (r.status, r.items.map (fun i => (i.status, i.meta)))) =
      some (ReqStatus.failed, [(Status.failed, [])]) :=
  ⟨by decide, by decide, by decide⟩

/-- Counterexample to C5 as stated: `cancel_hold` returns normally but
reports failure (`False`); the claim says the item's status is left
unchanged, yet `compensate` still marks the held item `cancelled`
because the return value is ignored. -/
theorem C5_counterexample :
    cancelFalseProvider.cancel_hold "H5" = some false ∧
    (compensate c5providers c5req).items.map (fun i => i.status) = [Status.cancelled] ∧
    Status.cancelled ≠ Status.held :=
  ⟨by decide, by decide, by decide⟩

/-- C5 (amended). `Compensate` calls `CancelHold` exactly for every item
with a truthy (non-`None`, non-empty) `hold_id` whose `item_type` is
mapped (an unmapped lookup raises inside the per-item `try` and skips
the call); when `CancelHold` returns — whether it reports success or
failure, its value being ignored — a non-`confirmed` item is set to
`cancelled` and a `confirmed` item is left unchanged; when `CancelHold`
throws, the item is left unchanged; items without a truthy hold are
untouched. -/
theorem C5_compensate_semantics_amended (providers : Providers) (req : BookingRequest) :
    (∀ id h, (id, h) ∈ compensate_calls providers req ↔
      ∃ item ∈ req.items, item.item_id = id ∧ item.hold_id = some h ∧ h ≠ "" ∧
        (providers item.item_type).isSome) ∧
    (∀ (i : Nat) (hi : i < req.items.length)
        (hi' : i < (compensate providers req).items.length),
      (∀ (h : String) (p : Provider) (b : Bool),
        (req.items.get ⟨i, hi⟩).hold_id = some h → h ≠ "" →
        providers (req.items.get ⟨i, hi⟩).item_type = some p →
        p.cancel_hold h = some b →
        ((req.items.get ⟨i, hi⟩).status = Status.confirmed →
          (compensate providers req).items.get ⟨i, hi'⟩ = req.items.get ⟨i, hi⟩) ∧
        ((req.items.get ⟨i, hi⟩).status ≠ Status.confirmed →
          (compensate providers req).items.get ⟨i, hi'⟩ =
            { req.items.get ⟨i, hi⟩ with status := Status.cancelled })) ∧
      (∀ (h : String) (p : Provider),
        (req.items.get ⟨i, hi⟩).hold_id = some h → h ≠ "" →
        providers (req.items.get ⟨i, hi⟩).item_type = some p →
        p.cancel_hold h = none →
        (compensate providers req).items.get ⟨i, hi'⟩ = req.items.get ⟨i, hi⟩) ∧
      (((req.items.get ⟨i, hi⟩).hold_id = none ∨
          (req.items.get ⟨i, hi⟩).hold_id = some "") →
        (compensate providers req).items.get ⟨i, hi'⟩ = req.items.get ⟨i, hi⟩)) := by
  constructor
  · intro id h
    rw [compensate_calls_mem]
    constructor
    · rintro ⟨item, hitem, hsnd⟩
      obtain ⟨h1, h2, h3, h4⟩ := (compensateItemCall_snd_eq_some providers item id h).mp hsnd
      exact ⟨item, hitem, h1.symm, h2, h3, h4⟩
    · rintro ⟨item, hitem, h1, h2, h3, h4⟩
      exact ⟨item, hitem,
        (compensateItemCall_snd_eq_some providers item id h).mpr ⟨h1.symm, h2, h3, h4⟩⟩
  · intro i hi hi'
    have hgets := compensate_items_get providers req i hi hi'
    refine ⟨?_, ?_, ?_⟩
    · intro h p b hh hne hp hc
      constructor
      · intro hconf
        rw [hgets, compensateItemCall_confirmed providers _ hconf]
      · intro hnconf
        have hr := compensateItemCall_returned providers _ p h b hh hne hp hc hnconf
        rw [hgets, hr]
    · intro h p hh hne hp hc
      have hr := compensateItemCall_throw providers _ p h hh hne hp hc
      rw [hgets, hr]
    · intro hhold
      rw [hgets, compensateItemCall_no_hold providers _ hhold]

/-- Witness for the amended C5: the `cancel_hold`-returns-`False` run
still cancels the held item. -/
theorem C5_compensate_semantics_amended_witness :
    (compensate c5providers c5req).items.get ⟨0, by decide⟩ =
      { c5req.items.get ⟨0, by decide⟩ with status := Status.cancelled } :=
  (((C5_compensate_semantics_amended c5providers c5req).2 0 (by decide) (by decide)).1
    "H5" cancelFalseProvider false (by decide) (by decide) rfl (by decide)).2 (by decide)

/-- Counterexample to C6 as stated: `reserve_all` on a request whose
only item is already `confirmed` is not a no-op — it calls the provider
again, issues a fresh hold and resets the item to `held`. -/
theorem C6_counterexample :
    (reserve_all c6providers c6req).map
        (fun r => r.items.map (fun i => (i.status, i.hold_id))) =
      some [(Status.held, some "H-new")] ∧
    Status.held ≠ Status.confirmed ∧ (some "H-new" : Option String) ≠ some "H-old" :=
  ⟨by decide, by decide, by decide⟩

/-- C6 (amended). A `confirmed` item is never transitioned by
`confirm_all` (only `held` items are processed) or by `compensate`
(whose status overwrite skips `confirmed` items); `reserve_all`,
however, has no status guard and re-reserves every item, so it is not a
no-op on already-`confirmed` items. -/
theorem C6_confirmed_terminal_amended (providers : Providers) (pa : PaymentAuth)
    (req : BookingRequest) :
    (∀ req', confirm_all providers pa req = some req' →
      req'.items.length = req.items.length ∧
      ∀ (i : Nat) (hi : i < req.items.length) (hi' : i < req'.items.length),
        (req.items.get ⟨i, hi⟩).status = Status.confirmed →
        req'.items.get ⟨i, hi'⟩ = req.items.get ⟨i, hi⟩) ∧
    (∀ (i : Nat) (hi : i < req.items.length)
        (hi' : i < (compensate providers req).items.length),
      (req.items.get ⟨i, hi⟩).status = Status.confirmed →
      (compensate providers req).items.get ⟨i, hi'⟩ = req.items.get ⟨i, hi⟩) := by
  constructor
  · intro req' hrun
    obtain ⟨items, hm, hdisj⟩ := confirm_all_eq_some providers pa req req' hrun
    have hlen := mapOpt_some_length _ _ _ hm
    have hitems : ∀ (i : Nat) (hi : i < req.items.length) (h2 : i < items.length),
        (req.items.get ⟨i, hi⟩).status = Status.confirmed →
        items.get ⟨i, h2⟩ = req.items.get ⟨i, hi⟩ := by
      intro i hi h2 hconf
      have hfi := mapOpt_some_get _ _ _ hm i hi h2
      rw [confirmItem_skip providers pa _ (by rw [hconf]; exact (by decide))] at hfi
      simp only [Option.some.injEq] at hfi
      exact hfi.symm
    rcases hdisj with ⟨_, hreq⟩ | ⟨_, hreq⟩
    · subst hreq
      constructor
      · show (compensate providers { req with items := items }).items.length =
          req.items.length
        rw [compensate_items_length]
        exact hlen
      · intro i hi hi' hconf
        have h2 : i < items.length := by rw [hlen]; exact hi
        have hmid := hitems i hi h2 hconf
        rw [compensate_items_get providers { req with items := items } i h2 hi']
        rw [compensateItemCall_confirmed providers _ (by rw [hmid]; exact hconf)]
        exact hmid
    · subst hreq
      exact ⟨hlen, fun i hi hi' hconf => hitems i hi hi' hconf⟩
  · intro i hi hi' hconf
    rw [compensate_items_get providers req i hi hi']
    exact compensateItemCall_confirmed providers _ hconf

/-- Witness for the amended C6: compensation leaves the concrete
confirmed flight untouched. -/
theorem C6_confirmed_terminal_amended_witness :
    (compensate c6providers c6req).items.get ⟨0, by decide⟩ =
      c6req.items.get ⟨0, by decide⟩ :=
  (C6_confirmed_terminal_amended c6providers "pay-6" c6req).2 0
    (by decide) (by decide) (by decide)
